/-
Verification of the document qualification pipeline's consensus decision engine,
oracle override gate, score aggregation, page selection and false-positive
filtering, as implemented in src/pipeline/orchestrator.py.

Modelling conventions:
* Python floats are modelled as exact rationals (ℚ); `round(x, 2)` is modelled
  as round-half-to-even on ℚ, matching Python's banker's rounding.
* `None` becomes `Option`; a Python `x is not None and x >= c` test becomes a
  helper on `Option ℚ` that is `false` on `none`.
* The Florence-2 classifier is modelled by an environment `FloEnv`:
  `available` is `FLORENCE_AVAILABLE ∧ classifier instance present`,
  `hasImage` is `image_path` being truthy, and `classify` is the (deterministic)
  result of `classify_document` (`none` = the call raised).
* A Python `TypeError` raised while formatting `None` with `:.1f` in a message
  is modelled by returning `Except.error ()`; normal returns are `Except.ok`.
* Environment knobs are fixed at their defaults (BLUR_EXTREME_THRESHOLD = 15).
-/
import Mathlib

inductive Status where
  | accepted
  | rejected
  | flagForReview
deriving DecidableEq, Repr

inductive Priority where
  | high
  | normal
  | medium
  | low
  | na
deriving DecidableEq, Repr

/-- A consensus verdict: the `status`/`priority` part of the dict returned by
`make_consensus_decision` (messages are elided; the TypeError raised while
building two of the messages is modelled in the engine's return type). -/
structure Verdict where
  status : Status
  priority : Priority
deriving DecidableEq, Repr

/-- Result dict of `florence_classifier.classify_document` / of the override
gate: `is_printed`, `confidence` and whether the `error` key is truthy. -/
structure ORes where
  isPrinted : Bool
  confidence : ℚ
  hasErr : Bool
deriving DecidableEq, Repr

/-- The Florence-2 oracle environment seen by `_check_florence_override`. -/
structure FloEnv where
  available : Bool
  hasImage : Bool
  classify : Option ORes
deriving DecidableEq, Repr

/-- The per-page signals passed to `make_consensus_decision`. -/
structure Signals where
  ocr : Option ℚ
  hw : Option ℚ
  isConcentrated : Bool
  isSpreadOut : Bool
  blur : Option ℚ
  resolution : Option (ℕ × ℕ)
  stage1Critical : List String
  stage2Critical : List String
  stage3Critical : List String
deriving DecidableEq, Repr

/-- Python `x is not None and x >= c`. -/
def oGe (x : Option ℚ) (c : ℚ) : Bool :=
  match x with
  | some v => decide (c ≤ v)
  | none => false

/-- Python `x is not None and x < c`. -/
def oLt (x : Option ℚ) (c : ℚ) : Bool :=
  match x with
  | some v => decide (v < c)
  | none => false

/-- Python `x is not None and x > c`. -/
def oGt (x : Option ℚ) (c : ℚ) : Bool :=
  match x with
  | some v => decide (c < v)
  | none => false

/-- Python `resolution is not None and (width < 400 or height < 300)`. -/
def resTooLow (r : Option (ℕ × ℕ)) : Bool :=
  match r with
  | some (w, h) => decide (w < 400 ∨ h < 300)
  | none => false

/-- Python `resolution is not None and resolution[0] > c`. -/
def resWidthGt (r : Option (ℕ × ℕ)) (c : ℕ) : Bool :=
  match r with
  | some (w, _) => decide (c < w)
  | none => false

/-- `BLUR_EXTREME_THRESHOLD` environment knob, default 15. -/
def blurExtremeThreshold : ℚ := 15

/-- `_check_florence_override(image_path, ocr_confidence, handwriting_pct)`:
gates the oracle call (availability, image path, OCR/handwriting floors),
treats a classify error as no override, returns a handwritten result
unmodified, and approves a printed result only above a required-confidence
bar that depends on the handwriting bucket and the OCR confidence. -/
def checkFlorence (env : FloEnv) (ocr hw : Option ℚ) : Option ORes :=
  match env.available && env.hasImage, ocr, hw with
  | true, some o, some h =>
    if o < 50 ∨ h < 20 then none
    else if 40 ≤ h ∧ o < 70 then none
    else if 35 ≤ h ∧ h < 40 ∧ o < 65 then none
    else if 30 ≤ h ∧ h < 35 ∧ o < 60 then none
    else
      match env.classify with
      | none => none
      | some r =>
        if r.hasErr then none
        else if !r.isPrinted then
          some { isPrinted := false, confidence := r.confidence, hasErr := false }
        else
          let base : ℚ :=
            if 40 ≤ h then 0.75
            else if 35 ≤ h then 0.70
            else if 30 ≤ h then 0.65
            else 0.60
          let req : ℚ :=
            if 80 ≤ o then max 0.60 (base - 0.10)
            else if 75 ≤ o then max 0.60 (base - 0.05)
            else base
          if r.confidence < req then none else some r
  | _, _, _ => none

/-- The characters of a string, lowercased (Python `f.lower()`). -/
def lowerChars (s : String) : List Char := s.data.map Char.toLower

def isPrefixL : List Char → List Char → Bool
  | [], _ => true
  | _ :: _, [] => false
  | a :: as, b :: bs => a == b && isPrefixL as bs

/-- Whether `pat` occurs as a contiguous substring of `l`. -/
def containsL (pat : List Char) : List Char → Bool
  | [] => isPrefixL pat []
  | c :: rest => isPrefixL pat (c :: rest) || containsL pat rest

/-- Python `pat in s.lower()` for a lowercase pattern `pat`. -/
def containsSub (s pat : String) : Bool := containsL pat.data (lowerChars s)

/-- Whether a failure message is blur-related:
`'blur' in f.lower() or 'blurry' in f.lower()`. -/
def isBlurMsg (f : String) : Bool :=
  containsSub f "blur" || containsSub f "blurry"

/-- Whether a failure message is handwriting-related:
`'handwriting' in f.lower()`. -/
def isHwMsg (f : String) : Bool :=
  containsSub f "handwriting"

/-- Disagreement zone C (orchestrator.py lines 561-596): handwriting detected
but OCR is high; trailing `return None` when nothing matched. -/
def stepDisagreeC (sig : Signals) (hw : Option ℚ) : Except Unit (Option Verdict) :=
  if oGt hw 20 && oGt sig.ocr 70 then
    if oLt sig.blur 60 then .ok (some ⟨.accepted, .normal⟩)
    else if sig.isConcentrated then .ok (some ⟨.accepted, .normal⟩)
    else if sig.isSpreadOut then .ok (some ⟨.rejected, .na⟩)
    else .ok (some ⟨.accepted, .normal⟩)
  else .ok none

/-- Disagreement zone B (lines 551-558): low OCR despite good image quality. -/
def stepDisagreeB (sig : Signals) (hw : Option ℚ) : Except Unit (Option Verdict) :=
  if oLt sig.ocr 50 && oGt sig.blur 150 && resWidthGt sig.resolution 1000 then
    .ok (some ⟨.flagForReview, .low⟩)
  else stepDisagreeC sig hw

/-- Disagreement zone A (lines 524-548): OCR good, handwriting 25-40%. -/
def stepDisagreeA (sig : Signals) (hw : Option ℚ) : Except Unit (Option Verdict) :=
  if oGt sig.ocr 75 && oGt hw 25 && oLt hw 40 then
    if sig.isConcentrated then .ok (some ⟨.accepted, .normal⟩)
    else if sig.isSpreadOut then .ok (some ⟨.flagForReview, .medium⟩)
    else .ok (some ⟨.flagForReview, .medium⟩)
  else stepDisagreeB sig hw

/-- Signature/stamp handling (lines 499-516); the low-OCR message formats
`ocr_confidence` with `:.1f`, raising TypeError when it is None. -/
def stepSignature (sig : Signals) (hw : Option ℚ) : Except Unit (Option Verdict) :=
  if oGt hw 15 && oLt hw 30 && sig.isConcentrated then
    if oGe sig.ocr 30 then .ok (some ⟨.accepted, .normal⟩)
    else
      match sig.ocr with
      | none => .error ()
      | some _ => .ok (some ⟨.flagForReview, .low⟩)
  else stepDisagreeA sig hw

/-- Clear acceptance (lines 485-493): all signals agree. -/
def stepClearAccept (sig : Signals) (hw : Option ℚ) : Except Unit (Option Verdict) :=
  if oGt sig.ocr 80 && oLt hw 15 && oGt sig.blur 100 && resWidthGt sig.resolution 800 then
    .ok (some ⟨.accepted, .high⟩)
  else stepSignature sig hw

/-- Residual stage critical failures (lines 436-478): for readable pages
without extreme blur, strip handwriting failures after an oracle confirmation,
then strip blur/handwriting-labelled failures; abstain if none remain. -/
def stepCriticals (env : FloEnv) (sig : Signals) (hw : Option ℚ) :
    Except Unit (Option Verdict) :=
  let allCrit := sig.stage1Critical ++ sig.stage2Critical ++ sig.stage3Critical
  if allCrit.length > 0 then
    if oGe sig.ocr 50 && !(oLt sig.blur blurExtremeThreshold) then
      let hwCrit := allCrit.filter (fun f => isHwMsg f)
      let allCrit2 :=
        if !hwCrit.isEmpty && env.hasImage then
          match checkFlorence env sig.ocr hw with
          | some r =>
            if r.isPrinted then allCrit.filter (fun f => !(isHwMsg f)) else allCrit
          | none => allCrit
        else allCrit
      let filtered := allCrit2.filter (fun f => !(isBlurMsg f) && !(isHwMsg f))
      if filtered.isEmpty then .ok none
      else .ok (some ⟨.rejected, .na⟩)
    else .ok (some ⟨.rejected, .na⟩)
  else stepClearAccept sig hw

/-- Blur tiers (lines 399-433): extreme blur always rejects; moderate blur is
arbitrated by OCR. The final rejection message formats `ocr_confidence` with
`:.1f`, raising TypeError when it is None. -/
def stepBlur (env : FloEnv) (sig : Signals) (hw : Option ℚ) :
    Except Unit (Option Verdict) :=
  if oLt sig.blur 30 then
    if oLt sig.blur blurExtremeThreshold then .ok (some ⟨.rejected, .na⟩)
    else if oGe sig.ocr 50 then stepCriticals env sig hw
    else if oGe sig.ocr 30 then .ok (some ⟨.flagForReview, .low⟩)
    else
      match sig.ocr with
      | none => .error ()
      | some _ => .ok (some ⟨.rejected, .na⟩)
  else stepCriticals env sig hw

/-- Physical floor (lines 390-397): resolution below 400x300 rejects. -/
def stepPhysical (env : FloEnv) (sig : Signals) (hw : Option ℚ) :
    Except Unit (Option Verdict) :=
  if resTooLow sig.resolution then .ok (some ⟨.rejected, .na⟩)
  else stepBlur env sig hw

/-- Spread-out handwriting tier (lines 315-387). -/
def stepSpread (env : FloEnv) (sig : Signals) (hw : Option ℚ) :
    Except Unit (Option Verdict) :=
  if oGe hw 25 && sig.isSpreadOut then
    if oGe hw 40 then
      if oGe sig.ocr 80 then
        match checkFlorence env sig.ocr hw with
        | some r =>
          if r.isPrinted then .ok (some ⟨.accepted, .normal⟩)
          else .ok (some ⟨.rejected, .na⟩)
        | none => .ok (some ⟨.rejected, .na⟩)
      else .ok (some ⟨.rejected, .na⟩)
    else if oGe sig.ocr 60 then
      match checkFlorence env sig.ocr hw with
      | some r =>
        if r.isPrinted then .ok (some ⟨.accepted, .normal⟩)
        else .ok (some ⟨.rejected, .na⟩)
      | none => .ok (some ⟨.rejected, .na⟩)
    else .ok (some ⟨.rejected, .na⟩)
  else stepPhysical env sig hw

/-- Borderline handwriting tier 30-39% (lines 289-313): a printed oracle
confirmation accepts; anything else falls through without rejecting. -/
def stepBorderline (env : FloEnv) (sig : Signals) (hw : Option ℚ) :
    Except Unit (Option Verdict) :=
  if oGe hw 30 && oLt hw 40 then
    if oGe sig.ocr 60 then
      match checkFlorence env sig.ocr hw with
      | some r =>
        if r.isPrinted then .ok (some ⟨.accepted, .normal⟩) else stepSpread env sig hw
      | none => stepSpread env sig hw
    else stepSpread env sig hw
  else stepSpread env sig hw

/-- Absolute unreadability plus the high-handwriting tier (lines 213-287),
then the rest of the cascade. `hw` is the handwriting percentage after the
very-blurry discount. -/
def consensusCore (env : FloEnv) (sig : Signals) (hw : Option ℚ) :
    Except Unit (Option Verdict) :=
  if oLt sig.ocr 20 then .ok (some ⟨.rejected, .na⟩)
  else if oGe hw 40 then
    if oGe sig.ocr 70 then
      match checkFlorence env sig.ocr hw with
      | some r =>
        if r.isPrinted then .ok (some ⟨.accepted, .normal⟩)
        else .ok (some ⟨.rejected, .na⟩)
      | none =>
        if oGe sig.ocr 75 then .ok (some ⟨.accepted, .normal⟩)
        else .ok (some ⟨.rejected, .na⟩)
    else .ok (some ⟨.rejected, .na⟩)
  else stepBorderline env sig hw

/-- Very-blurry discount (lines 191-207): when `blur_score < 30` and
`30 <= ocr_confidence < 50`, handwriting detection is ignored. -/
def discountedHw (sig : Signals) : Option ℚ :=
  if oLt sig.blur 30 && oGe sig.ocr 30 && !(oGe sig.ocr 50) then none else sig.hw

/-- High-OCR trust tier (lines 110-184): very high OCR with high handwriting
consults the oracle; unavailable/inconclusive oracle accepts only for
`ocr >= 85 ∧ hw < 50`, rejects for `hw >= 50`, otherwise falls through. -/
def highOcrTier (env : FloEnv) (sig : Signals) : Option Verdict :=
  if oGe sig.ocr 80 && oGe sig.hw 40 then
    match checkFlorence env sig.ocr sig.hw with
    | some r =>
      if r.isPrinted then some ⟨.accepted, .normal⟩ else some ⟨.rejected, .na⟩
    | none =>
      if oGe sig.ocr 85 && oLt sig.hw 50 then some ⟨.accepted, .normal⟩
      else if oGe sig.hw 50 then some ⟨.rejected, .na⟩
      else none
  else none

/-- `make_consensus_decision` (lines 87-596). `Except.error ()` models the
TypeError raised when a rejection/review message formats a None
`ocr_confidence` with `:.1f`; `Except.ok none` is "no consensus, use the
scoring system". -/
def makeConsensusDecision (env : FloEnv) (sig : Signals) :
    Except Unit (Option Verdict) :=
  match highOcrTier env sig with
  | some v => .ok (some v)
  | none => consensusCore env sig (discountedHw sig)

/-- Round a rational to the nearest integer, ties to even (Python's `round`). -/
def roundHalfEven (x : ℚ) : ℤ :=
  if x - ⌊x⌋ < 1 / 2 then ⌊x⌋
  else if 1 / 2 < x - ⌊x⌋ then ⌊x⌋ + 1
  else if ⌊x⌋ % 2 = 0 then ⌊x⌋ else ⌊x⌋ + 1

/-- Python `round(x, 2)` on the exact rational value. -/
def round2 (q : ℚ) : ℚ := ((roundHalfEven (q * 100) : ℤ) : ℚ) / 100

/-- One entry of `stage_results`: the `stage` name and the `stage_score` value
(`none` when the `stage_score` key is absent, defaulting to 0 on read). -/
structure SR where
  stage : String
  stageScore : Option ℚ
deriving DecidableEq, Repr

def stage1Name : String := "Stage 1: Basic Quality Checks"

def stage2Name : String := "Stage 2: OCR Confidence Analysis"

def stage3Name : String := "Stage 3: Handwriting Detection"

def stage4Name : String := "Stage 4: Overall Quality Score (BRISQUE)"

/-- `next((r.get('stage_score', 0) for r in stage_results if r.get('stage') == name), 0)`. -/
def getStageScore (l : List SR) (name : String) : ℚ :=
  match l.find? (fun r => r.stage = name) with
  | some r => r.stageScore.getD 0
  | none => 0

/-- `calculate_final_quality_score` (lines 53-85): weighted average of the four
stage scores, rounded to 2 decimals. -/
def calculateFinalQualityScore (l : List SR) : ℚ :=
  round2 (getStageScore l stage1Name * 0.35 + getStageScore l stage2Name * 0.40 +
    getStageScore l stage3Name * 0.20 + getStageScore l stage4Name * 0.05)

/-- Outcome of successfully processing one page (the fields of the page result
dict that page selection and document aggregation read). -/
structure PageEval where
  score : ℚ
  hasCrit : Bool
  status : Status
deriving DecidableEq, Repr

/-- A stored page result; a page whose processing raised at the per-page
boundary is stored as score 0, critical failure, REJECTED (lines 1091-1107). -/
structure PageRec where
  pageNumber : ℕ
  score : ℚ
  hasCrit : Bool
  status : Status
deriving DecidableEq, Repr

/-- The page result appended for outcome `o` at 0-based index `i`. -/
def mkPageRec (i : ℕ) (o : Option PageEval) : PageRec :=
  match o with
  | some e => ⟨i + 1, e.score, e.hasCrit, e.status⟩
  | none => ⟨i + 1, 0, true, .rejected⟩

/-- All stored page results, in processing order. -/
def mkRecs (i : ℕ) : List (Option PageEval) → List PageRec
  | [] => []
  | o :: rest => mkPageRec i o :: mkRecs (i + 1) rest

/-- Best-page tracking for one loop iteration (lines 1046-1090); pages that
raised at the per-page boundary never update the best page. -/
def stepBest (total : ℕ) (st : Option PageRec × ℚ) (i : ℕ) (o : Option PageEval) :
    Option PageRec × ℚ :=
  match o with
  | none => st
  | some e =>
    let pr : PageRec := ⟨i + 1, e.score, e.hasCrit, e.status⟩
    if total = 2 then
      if i + 1 = 2 then (some pr, e.score) else st
    else if total = 1 then
      if i + 1 = 1 then (some pr, e.score) else st
    else
      if !e.hasCrit then
        match st.1 with
        | none => (some pr, e.score)
        | some b =>
          if b.hasCrit then (some pr, e.score)
          else if e.score > st.2 then (some pr, e.score) else st
      else
        match st.1 with
        | none => (some pr, e.score)
        | some b =>
          if b.hasCrit ∧ e.score > st.2 then (some pr, e.score) else st

def selectBestAux (total : ℕ) (i : ℕ) (st : Option PageRec × ℚ) :
    List (Option PageEval) → Option PageRec × ℚ
  | [] => st
  | o :: rest => selectBestAux total (i + 1) (stepBest total st i o) rest

/-- The best-page result after the page loop, before the fallback. -/
def selectBest (outcomes : List (Option PageEval)) : Option PageRec :=
  (selectBestAux outcomes.length 0 (none, -1) outcomes).1

/-- `max(page_results, key=lambda x: x['final_quality_score'])`: the first
page result with maximal score (lines 1110-1113 fallback). -/
def firstMaxRec : List PageRec → Option PageRec
  | [] => none
  | p :: ps => some (ps.foldl (fun b q => if q.score > b.score then q else b) p)

/-- Document-level status adjustment (lines 1163-1186): for 3+ page documents
a non-accepted best-page status is overridden to ACCEPTED when any page
passed; 1- and 2-page documents keep the best page's status. -/
def docStatus (total : ℕ) (st0 : Status) (anyAcc : Bool) : Status :=
  if 2 < total then
    if st0 = .accepted then st0
    else if anyAcc then .accepted
    else st0
  else st0

/-- The document-level fields of the result of `process_document` that the
claims are about. -/
structure DocResult where
  status : Status
  bestPage : ℕ
deriving DecidableEq, Repr

/-- The best-page result used for the final decision: the loop's choice, or
the highest-scoring page as fallback (lines 1109-1113). -/
def bestOf (outcomes : List (Option PageEval)) : Option PageRec :=
  match selectBest outcomes with
  | some b => some b
  | none => firstMaxRec (mkRecs 0 outcomes)

/-- `best_page_result['status'] if best_page_result else 'REJECTED'`. -/
def statusOf : Option PageRec → Status
  | some b => b.status
  | none => .rejected

/-- `best_page_result['page_number'] if best_page_result else 1`. -/
def pageNumOf : Option PageRec → ℕ
  | some b => b.pageNumber
  | none => 1

/-- Page selection and document aggregation of `process_document`
(lines 1040-1216), abstracted over the per-page outcomes: `some e` is a page
that was processed (with its score / critical-failure flag / status), `none`
is a page whose processing raised at the per-page boundary. -/
def processPages (outcomes : List (Option PageEval)) : DocResult :=
  { status := docStatus outcomes.length (statusOf (bestOf outcomes))
      ((mkRecs 0 outcomes).any (fun p => p.status = .accepted))
    bestPage := pageNumOf (bestOf outcomes) }

/-- The `critical_failures` and `warnings` lists of one stage result. -/
structure StageLists where
  crit : List String
  warn : List String
deriving DecidableEq, Repr

/-- Warning appended when blur critical failures are downgraded (line 968).
Numeric formatting is approximated by `toString` on the exact rationals. -/
def blurWarnMsg (blur ocr : ℚ) : String :=
  "Document is slightly blurry (blur score: " ++ toString blur ++
    ") but readable (OCR: " ++ toString ocr ++ "%)"

/-- Warning appended when handwriting critical failures are downgraded
(line 990). -/
def hwWarnMsg (blur ocr : ℚ) : String :=
  "Handwriting detection unreliable due to blur (blur score: " ++ toString blur ++
    "). OCR confidence (" ++ toString ocr ++ "%) confirms printed text."

/-- The per-page false-positive filtering (lines 944-992), written in
state-passing style: it receives the stage-1 and stage-3 result lists and the
aggregated page lists, and returns their values after the filtering step.
In the Python code the stage results are updated in place.
`Except.error ()` models the TypeError raised when the warning message would
format a None `blur_score` with `:.1f`. -/
def filterFalsePositives (s1 s3 : StageLists) (pageCrit pageWarn : List String)
    (ocr blur : Option ℚ) :
    Except Unit (StageLists × StageLists × List String × List String) :=
  if oGe ocr 50 && !(oLt blur blurExtremeThreshold) then
    let blurFails := s1.crit.filter (fun f => isBlurMsg f)
    let step1 : Except Unit (StageLists × List String × List String) :=
      if blurFails.isEmpty then .ok (s1, pageCrit, pageWarn)
      else
        match ocr, blur with
        | some o, some b =>
          .ok (⟨s1.crit.filter (fun f => !(blurFails.contains f)),
                 s1.warn ++ [blurWarnMsg b o]⟩,
               pageCrit.filter (fun f => !(blurFails.contains f)),
               pageWarn ++ [blurWarnMsg b o])
        | _, _ => .error ()
    match step1 with
    | .error e => .error e
    | .ok (s1a, pc1, pw1) =>
      if oLt blur 30 then
        let hwFails := s3.crit.filter (fun f => isHwMsg f)
        if hwFails.isEmpty then .ok (s1a, s3, pc1, pw1)
        else
          match ocr, blur with
          | some o, some b =>
            .ok (s1a,
                 ⟨s3.crit.filter (fun f => !(hwFails.contains f)),
                   s3.warn ++ [hwWarnMsg b o]⟩,
                 pc1.filter (fun f => !(hwFails.contains f)),
                 pw1 ++ [hwWarnMsg b o])
          | _, _ => .error ()
      else .ok (s1a, s3, pc1, pw1)
  else .ok (s1, s3, pageCrit, pageWarn)

/-- The required-confidence bar as worded by the spec (§4.4): 0.75 for
handwriting ≥ 40, 0.70 for ≥ 35, 0.65 for ≥ 30, else 0.60; reduced by 0.10
when OCR ≥ 80 or by 0.05 when OCR ≥ 75, never going below 0.60. Stated
separately from `checkFlorence` so the gate's acceptance condition can be
compared against it. -/
def specRequiredBar (h o : ℚ) : ℚ :=
  if 80 ≤ o then
    max 0.60 ((if 40 ≤ h then 0.75 else if 35 ≤ h then 0.70
      else if 30 ≤ h then 0.65 else 0.60) - 0.10)
  else if 75 ≤ o then
    max 0.60 ((if 40 ≤ h then 0.75 else if 35 ≤ h then 0.70
      else if 30 ≤ h then 0.65 else 0.60) - 0.05)
  else
    if 40 ≤ h then 0.75 else if 35 ≤ h then 0.70 else if 30 ≤ h then 0.65 else 0.60

theorem oGe_some {v c : ℚ} : oGe (some v) c = decide (c ≤ v) := rfl

theorem oGe_none {c : ℚ} : oGe none c = false := rfl

theorem oLt_some {v c : ℚ} : oLt (some v) c = decide (v < c) := rfl

theorem oLt_none {c : ℚ} : oLt none c = false := rfl

theorem oGt_some {v c : ℚ} : oGt (some v) c = decide (c < v) := rfl

theorem oGt_none {c : ℚ} : oGt none c = false := rfl

theorem le_roundHalfEven {x : ℚ} {m : ℤ} (h : (m : ℚ) ≤ x) : m ≤ roundHalfEven x := by
  have hfl : m ≤ ⌊x⌋ := Int.le_floor.mpr h
  unfold roundHalfEven
  split_ifs <;> omega

theorem roundHalfEven_le {x : ℚ} {m : ℤ} (h : x ≤ (m : ℚ)) : roundHalfEven x ≤ m := by
  have hfl : ⌊x⌋ ≤ m := by
    have h2 := Int.floor_mono h
    rwa [Int.floor_intCast] at h2
  have hlow : (⌊x⌋ : ℚ) ≤ x := Int.floor_le x
  unfold roundHalfEven
  split_ifs with h1 h2 h3
  · exact hfl
  · have hx : (⌊x⌋ : ℚ) < x := by linarith
    have : (⌊x⌋ : ℚ) < (m : ℚ) := lt_of_lt_of_le hx h
    have : ⌊x⌋ < m := by exact_mod_cast this
    omega
  · exact hfl
  · have hx : (⌊x⌋ : ℚ) < x := by
      push_neg at h1
      linarith
    have : (⌊x⌋ : ℚ) < (m : ℚ) := lt_of_lt_of_le hx h
    have : ⌊x⌋ < m := by exact_mod_cast this
    omega

theorem round2_nonneg {q : ℚ} (h : 0 ≤ q) : 0 ≤ round2 q := by
  have hk : (0 : ℤ) ≤ roundHalfEven (q * 100) := by
    apply le_roundHalfEven
    push_cast
    linarith
  unfold round2
  have : (0 : ℚ) ≤ (roundHalfEven (q * 100) : ℚ) := by exact_mod_cast hk
  linarith

theorem round2_le_100 {q : ℚ} (h : q ≤ 100) : round2 q ≤ 100 := by
  have hk : roundHalfEven (q * 100) ≤ (10000 : ℤ) := by
    apply roundHalfEven_le
    push_cast
    linarith
  have hc : (roundHalfEven (q * 100) : ℚ) ≤ 10000 := by exact_mod_cast hk
  unfold round2
  linarith

/-- C5: for stage scores in [0,100] the aggregated final quality score equals
round(stage1*0.35 + stage2*0.40 + stage3*0.20 + stage4*0.05, 2) (a stage
missing from the results contributes 0 through `getStageScore`), the result is
always in [0,100] and 2-decimal rounded, and scores [90,85,100,70] yield
exactly 89.0. -/
theorem c5_final_score (l : List SR)
    (h1a : 0 ≤ getStageScore l stage1Name) (h1b : getStageScore l stage1Name ≤ 100)
    (h2a : 0 ≤ getStageScore l stage2Name) (h2b : getStageScore l stage2Name ≤ 100)
    (h3a : 0 ≤ getStageScore l stage3Name) (h3b : getStageScore l stage3Name ≤ 100)
    (h4a : 0 ≤ getStageScore l stage4Name) (h4b : getStageScore l stage4Name ≤ 100) :
    calculateFinalQualityScore l =
      round2 (getStageScore l stage1Name * 0.35 + getStageScore l stage2Name * 0.40 +
        getStageScore l stage3Name * 0.20 + getStageScore l stage4Name * 0.05) ∧
    0 ≤ calculateFinalQualityScore l ∧ calculateFinalQualityScore l ≤ 100 ∧
    (∃ k : ℤ, calculateFinalQualityScore l = (k : ℚ) / 100) ∧
    calculateFinalQualityScore [⟨stage1Name, some 90⟩, ⟨stage2Name, some 85⟩,
      ⟨stage3Name, some 100⟩, ⟨stage4Name, some 70⟩] = 89 := by
  refine ⟨rfl, ?_, ?_, ⟨roundHalfEven ((getStageScore l stage1Name * 0.35 +
    getStageScore l stage2Name * 0.40 + getStageScore l stage3Name * 0.20 +
    getStageScore l stage4Name * 0.05) * 100), rfl⟩, ?_⟩
  · exact round2_nonneg (by linarith)
  · exact round2_le_100 (by linarith)
  · have e1 : getStageScore [⟨stage1Name, some 90⟩, ⟨stage2Name, some 85⟩,
        ⟨stage3Name, some 100⟩, ⟨stage4Name, some 70⟩] stage1Name = 90 := by decide
    have e2 : getStageScore [⟨stage1Name, some 90⟩, ⟨stage2Name, some 85⟩,
        ⟨stage3Name, some 100⟩, ⟨stage4Name, some 70⟩] stage2Name = 85 := by decide
    have e3 : getStageScore [⟨stage1Name, some 90⟩, ⟨stage2Name, some 85⟩,
        ⟨stage3Name, some 100⟩, ⟨stage4Name, some 70⟩] stage3Name = 100 := by decide
    have e4 : getStageScore [⟨stage1Name, some 90⟩, ⟨stage2Name, some 85⟩,
        ⟨stage3Name, some 100⟩, ⟨stage4Name, some 70⟩] stage4Name = 70 := by decide
    unfold calculateFinalQualityScore
    rw [e1, e2, e3, e4]
    norm_num [round2, roundHalfEven]

/-- C5 witness: the theorem applied to the concrete stage scores
[90, 85, 100, 70]. -/
theorem c5_final_score_witness :
    calculateFinalQualityScore [⟨stage1Name, some 90⟩, ⟨stage2Name, some 85⟩,
      ⟨stage3Name, some 100⟩, ⟨stage4Name, some 70⟩] = 89 := by
  have h := c5_final_score [⟨stage1Name, some 90⟩, ⟨stage2Name, some 85⟩,
    ⟨stage3Name, some 100⟩, ⟨stage4Name, some 70⟩]
    (by decide) (by decide) (by decide) (by decide)
    (by decide) (by decide) (by decide) (by decide)
  exact h.2.2.2.2

/-- C6: whenever `ocr_confidence` is present and strictly below 20, the
consensus engine returns REJECTED, regardless of every other signal and of
the oracle environment. -/
theorem c6_unreadable_rejected (env : FloEnv) (sig : Signals) (o : ℚ)
    (hocr : sig.ocr = some o) (ho : o < 20) :
    makeConsensusDecision env sig = .ok (some ⟨.rejected, .na⟩) := by
  have h80 : ¬(80 : ℚ) ≤ o := by linarith
  have hA : highOcrTier env sig = none := by
    unfold highOcrTier
    simp [hocr, oGe_some, h80]
  unfold makeConsensusDecision
  rw [hA]
  unfold consensusCore
  simp [hocr, oLt_some, ho]

/-- C6 witness: `ocr=15, handwriting=0, blur=999, resolution=(4000,3000)` is
REJECTED. -/
theorem c6_unreadable_rejected_witness :
    makeConsensusDecision ⟨false, false, none⟩
      ⟨some 15, some 0, false, false, some 999, some (4000, 3000), [], [], []⟩ =
      .ok (some ⟨.rejected, .na⟩) :=
  c6_unreadable_rejected ⟨false, false, none⟩
    ⟨some 15, some 0, false, false, some 999, some (4000, 3000), [], [], []⟩
    15 rfl (by norm_num)

/-- C10: `make_consensus_decision` is not total on None signals: with
`ocr_confidence = None`, `handwriting_pct = None`, adequate resolution and
`blur_score` in [BLUR_EXTREME_THRESHOLD, 30), the moderate-blur rejection
message formats the None OCR confidence with `:.1f` and raises TypeError. -/
theorem c10_type_error (env : FloEnv) (sig : Signals) (b : ℚ) (w h : ℕ)
    (hocr : sig.ocr = none) (hhw : sig.hw = none)
    (hblur : sig.blur = some b) (hb1 : blurExtremeThreshold ≤ b) (hb2 : b < 30)
    (hres : sig.resolution = some (w, h)) (hw : 400 ≤ w) (hh : 300 ≤ h) :
    makeConsensusDecision env sig = .error () := by
  have hA : highOcrTier env sig = none := by
    unfold highOcrTier
    simp [hocr, oGe_none]
  unfold makeConsensusDecision
  rw [hA]
  have hd : discountedHw sig = none := by
    unfold discountedHw
    simp [hocr, oGe_none, hhw]
  rw [hd]
  unfold consensusCore stepBorderline stepSpread stepPhysical stepBlur
  have hrt : resTooLow sig.resolution = false := by
    unfold resTooLow
    rw [hres]
    simp
    omega
  have hbe : ¬ b < blurExtremeThreshold := by
    unfold blurExtremeThreshold at hb1 ⊢
    linarith
  simp [hocr, hhw, oLt_none, oGe_none, oLt_some, hblur, hrt, hb2, hbe]

/-- C10 witness: `ocr=None, hw=None, blur=20, resolution=(1000,1000)` raises
TypeError. -/
theorem c10_type_error_witness :
    makeConsensusDecision ⟨false, false, none⟩
      ⟨none, none, false, false, some 20, some (1000, 1000), [], [], []⟩ =
      .error () :=
  c10_type_error ⟨false, false, none⟩
    ⟨none, none, false, false, some 20, some (1000, 1000), [], [], []⟩
    20 1000 1000 rfl rfl rfl (by norm_num [blurExtremeThreshold]) (by norm_num)
    rfl (by norm_num) (by norm_num)

theorem mkRecs_mem_status (l : List (Option PageEval)) (i : ℕ) (e : PageEval)
    (hm : some e ∈ l) : ∃ p ∈ mkRecs i l, p.status = e.status := by
  induction l generalizing i with
  | nil => cases hm
  | cons o rest ih =>
    rcases List.mem_cons.mp hm with h | h
    · subst h
      exact ⟨⟨i + 1, e.score, e.hasCrit, e.status⟩, List.mem_cons_self _ _, rfl⟩
    · obtain ⟨p, hp, hps⟩ := ih (i + 1) h
      exact ⟨p, List.mem_cons_of_mem _ hp, hps⟩

theorem docStatus_of_any (t : ℕ) (s : Status) (h2 : 2 < t) :
    docStatus t s true = .accepted := by
  unfold docStatus
  rw [if_pos h2]
  by_cases hs : s = Status.accepted
  · simp [hs]
  · simp [hs]

/-- C4: for a document with 3 or more pages, if at least one page's per-page
status is ACCEPTED then the document-level status is ACCEPTED (the best page's
ACCEPTED status is kept, or the status is overridden to ACCEPTED by the
passing-pages check). -/
theorem c4_doc_accepted (outcomes : List (Option PageEval)) (e : PageEval)
    (hlen : 3 ≤ outcomes.length) (hmem : some e ∈ outcomes)
    (hst : e.status = .accepted) :
    (processPages outcomes).status = .accepted := by
  have hany : ((mkRecs 0 outcomes).any (fun p => p.status = Status.accepted)) = true := by
    obtain ⟨p, hp, hps⟩ := mkRecs_mem_status outcomes 0 e hmem
    refine List.any_eq_true.mpr ⟨p, hp, ?_⟩
    simp [hps, hst]
  show docStatus outcomes.length (statusOf (bestOf outcomes))
      ((mkRecs 0 outcomes).any (fun p => p.status = .accepted)) = .accepted
  rw [hany]
  exact docStatus_of_any _ _ (by omega)

/-- C4 witness: a 3-page document whose pages are REJECTED, ACCEPTED,
REJECTED has document status ACCEPTED. -/
theorem c4_doc_accepted_witness :
    (processPages [some ⟨30, true, .rejected⟩, some ⟨80, false, .accepted⟩,
      some ⟨20, true, .rejected⟩]).status = .accepted :=
  c4_doc_accepted
    [some ⟨30, true, .rejected⟩, some ⟨80, false, .accepted⟩, some ⟨20, true, .rejected⟩]
    ⟨80, false, .accepted⟩ (by decide) (by decide) rfl

/-- C3 counterexample: in a 2-page document whose page 2 fails at the
per-page boundary (while page 1 processed fine), the best-page fallback
selects page 1, so `best_page = 1`, contradicting "best_page equals 2,
always ... including when page 2's processing fails". -/
theorem c3_counterexample :
    (processPages [some ⟨50, false, .accepted⟩, none]).bestPage = 1 := by rfl

/-- C3 (amended): for a 2-page document whose page 2 completes per-page
processing, `best_page = 2`, regardless of page 1's outcome, score or
failures; when page 2 raises at the per-page boundary the fallback picks the
highest-scoring page instead. -/
theorem c3_best_page (o1 : Option PageEval) (e : PageEval) :
    (processPages [o1, some e]).bestPage = 2 := by
  cases o1 with
  | none => rfl
  | some e1 => rfl

/-- C3 witness: page 1 scores higher (90, no failures, ACCEPTED) yet page 2
is the representative page. -/
theorem c3_best_page_witness :
    (processPages [some ⟨90, false, .accepted⟩, some ⟨10, true, .rejected⟩]).bestPage = 2 :=
  c3_best_page (some ⟨90, false, .accepted⟩) ⟨10, true, .rejected⟩

/-- C1 counterexample: `ocr=82, hw=45`, oracle gate unavailable (returns
none). The claim predicts REJECTED for `80 ≤ ocr < 85` with `40 ≤ hw < 50`,
but the engine ACCEPTS (the high-OCR tier falls through and the
high-handwriting tier accepts since `ocr ≥ 75`). -/
theorem c1_counterexample :
    checkFlorence ⟨false, false, none⟩ (some 82) (some 45) = none ∧
    makeConsensusDecision ⟨false, false, none⟩
      ⟨some 82, some 45, false, false, none, some (1000, 1000), [], [], []⟩ =
      .ok (some ⟨.accepted, .normal⟩) :=
  ⟨rfl, rfl⟩

/-- C1 (amended): for `ocr ≥ 80` and `hw ≥ 40`: when the oracle gate returns
no result, the engine ACCEPTS exactly when `hw < 50` (regardless of OCR in
[80, 85)) and REJECTS when `hw ≥ 50`; when the gate returns an explicit
handwritten result, the engine REJECTS. -/
theorem c1_high_ocr_tier (env : FloEnv) (sig : Signals) (o h : ℚ)
    (hocr : sig.ocr = some o) (hhw : sig.hw = some h)
    (ho : 80 ≤ o) (hh : 40 ≤ h) :
    (checkFlorence env sig.ocr sig.hw = none →
      makeConsensusDecision env sig =
        .ok (some (if h < 50 then ⟨.accepted, .normal⟩ else ⟨.rejected, .na⟩))) ∧
    (∀ r, checkFlorence env sig.ocr sig.hw = some r → r.isPrinted = false →
      makeConsensusDecision env sig = .ok (some ⟨.rejected, .na⟩)) := by
  have h50o : (50 : ℚ) ≤ o := by linarith
  have h70o : (70 : ℚ) ≤ o := by linarith
  have h75o : (75 : ℚ) ≤ o := by linarith
  have hd : discountedHw sig = sig.hw := by
    unfold discountedHw
    rw [hocr]
    simp [oGe_some, h50o]
  constructor
  · intro hfo
    rw [hocr, hhw] at hfo
    by_cases h50 : h < 50
    · by_cases h85 : (85 : ℚ) ≤ o
      · have hA : highOcrTier env sig = some ⟨.accepted, .normal⟩ := by
          unfold highOcrTier
          rw [hocr, hhw]
          simp [oGe_some, oLt_some, ho, hh, hfo, h85, h50]
        unfold makeConsensusDecision
        rw [hA]
        simp [h50]
      · have hA : highOcrTier env sig = none := by
          unfold highOcrTier
          rw [hocr, hhw]
          simp [oGe_some, oLt_some, ho, hh, hfo, h85, show ¬(50 : ℚ) ≤ h from by linarith]
        unfold makeConsensusDecision
        rw [hA, hd, hhw]
        unfold consensusCore
        rw [hocr]
        simp [oLt_some, oGe_some, show ¬o < 20 from by linarith, hh, h70o, h75o, hfo, h50]
    · have hA : highOcrTier env sig = some ⟨.rejected, .na⟩ := by
        unfold highOcrTier
        rw [hocr, hhw]
        simp [oGe_some, oLt_some, ho, hh, hfo, h50, show (50 : ℚ) ≤ h from by linarith]
      unfold makeConsensusDecision
      rw [hA]
      simp [h50]
  · intro r hfo hpr
    rw [hocr, hhw] at hfo
    have hA : highOcrTier env sig = some ⟨.rejected, .na⟩ := by
      unfold highOcrTier
      rw [hocr, hhw]
      simp [oGe_some, ho, hh, hfo, hpr]
    unfold makeConsensusDecision
    rw [hA]

/-- C1 witness: `ocr=86, hw=45`, oracle unavailable, is ACCEPTED. -/
theorem c1_high_ocr_tier_witness :
    makeConsensusDecision ⟨false, false, none⟩
      ⟨some 86, some 45, false, false, none, some (1000, 1000), [], [], []⟩ =
      .ok (some ⟨.accepted, .normal⟩) := by
  have h := (c1_high_ocr_tier ⟨false, false, none⟩
    ⟨some 86, some 45, false, false, none, some (1000, 1000), [], [], []⟩ 86 45 rfl rfl
    (by norm_num) (by norm_num)).1 rfl
  norm_num at h
  exact h

theorem checkFlorence_some_bounds (env : FloEnv) (o h : ℚ) (r : ORes)
    (hc : checkFlorence env (some o) (some h) = some r) :
    50 ≤ o ∧ (40 ≤ h → 70 ≤ o) := by
  unfold checkFlorence at hc
  cases hb : env.available && env.hasImage with
  | false =>
    rw [hb] at hc
    cases hc
  | true =>
    rw [hb] at hc
    dsimp only at hc
    by_cases h1 : o < 50 ∨ h < 20
    · rw [if_pos h1] at hc
      cases hc
    · rw [if_neg h1] at hc
      by_cases h2 : 40 ≤ h ∧ o < 70
      · rw [if_pos h2] at hc
        cases hc
      · push_neg at h1 h2
        exact ⟨h1.1, fun hh => h2 hh⟩

/-- C2 counterexample: at the borderline tier (`30 ≤ hw < 40`), an explicit
handwritten oracle result is not absolute: with `ocr=90, hw=35`, concentrated
distribution, the gate obtains `is_printed=False` (confidence 0.99) yet the
engine later ACCEPTS, contradicting "the consensus engine then returns
REJECTED for that page". -/
theorem c2_counterexample :
    checkFlorence ⟨true, true, some ⟨false, 99 / 100, false⟩⟩ (some 90) (some 35) =
      some ⟨false, 99 / 100, false⟩ ∧
    makeConsensusDecision ⟨true, true, some ⟨false, 99 / 100, false⟩⟩
      ⟨some 90, some 35, true, false, none, some (1000, 1000), [], [], []⟩ =
      .ok (some ⟨.accepted, .normal⟩) :=
  ⟨rfl, rfl⟩

/-- C2 (amended): whenever the gate obtains an oracle result with
`is_printed = False`, it returns that handwritten result unmodified without
applying any confidence bar; and whenever `hw ≥ 40`, the consensus engine
then REJECTS regardless of OCR confidence. (For `30 ≤ hw < 40` the
handwritten signal is not absolute and the engine may still accept.) -/
theorem c2_oracle_handwritten :
    (∀ (env : FloEnv) (o h : ℚ) (r : ORes),
      env.available = true → env.hasImage = true → env.classify = some r →
      r.hasErr = false → r.isPrinted = false →
      50 ≤ o → 20 ≤ h → (40 ≤ h → 70 ≤ o) → (35 ≤ h → h < 40 → 65 ≤ o) →
      (30 ≤ h → h < 35 → 60 ≤ o) →
      checkFlorence env (some o) (some h) = some ⟨false, r.confidence, false⟩) ∧
    (∀ (env : FloEnv) (sig : Signals) (o h : ℚ) (r : ORes),
      sig.ocr = some o → sig.hw = some h → 40 ≤ h →
      checkFlorence env sig.ocr sig.hw = some r → r.isPrinted = false →
      makeConsensusDecision env sig = .ok (some ⟨.rejected, .na⟩)) := by
  constructor
  · intro env o h r hav him hcl herr hpr h50 h20 g1 g2 g3
    unfold checkFlorence
    rw [hav, him]
    have h1 : ¬(o < 50 ∨ h < 20) := by
      rintro (hx | hx) <;> linarith
    have h2 : ¬(40 ≤ h ∧ o < 70) := by
      rintro ⟨a, b⟩
      have := g1 a
      linarith
    have h3 : ¬(35 ≤ h ∧ h < 40 ∧ o < 65) := by
      rintro ⟨a, b, c⟩
      have := g2 a b
      linarith
    have h4 : ¬(30 ≤ h ∧ h < 35 ∧ o < 60) := by
      rintro ⟨a, b, c⟩
      have := g3 a b
      linarith
    simp only [Bool.and_self]
    rw [if_neg h1, if_neg h2, if_neg h3, if_neg h4, hcl]
    simp [herr, hpr]
  · intro env sig o h r hocr hhw hh hfo hpr
    rw [hocr, hhw] at hfo
    obtain ⟨h50, hg⟩ := checkFlorence_some_bounds env o h r hfo
    have h70 : (70 : ℚ) ≤ o := hg hh
    rcases le_or_lt 80 o with h80 | h80
    · have hA : highOcrTier env sig = some ⟨.rejected, .na⟩ := by
        unfold highOcrTier
        rw [hocr, hhw]
        simp [oGe_some, h80, hh, hfo, hpr]
      unfold makeConsensusDecision
      rw [hA]
    · have hA : highOcrTier env sig = none := by
        unfold highOcrTier
        rw [hocr]
        simp [oGe_some, show ¬(80 : ℚ) ≤ o from by linarith]
      have hd : discountedHw sig = sig.hw := by
        unfold discountedHw
        rw [hocr]
        simp [oGe_some, h50]
      unfold makeConsensusDecision
      rw [hA, hd, hhw]
      unfold consensusCore
      rw [hocr]
      simp [oLt_some, oGe_some, show ¬o < 20 from by linarith, hh, h70, hfo, hpr]

/-- C2 witness: `ocr=95`, oracle `is_printed=False` with confidence 0.9 at
`hw=45` is REJECTED. -/
theorem c2_oracle_handwritten_witness :
    makeConsensusDecision ⟨true, true, some ⟨false, 9 / 10, false⟩⟩
      ⟨some 95, some 45, false, false, none, some (1000, 1000), [], [], []⟩ =
      .ok (some ⟨.rejected, .na⟩) :=
  c2_oracle_handwritten.2 ⟨true, true, some ⟨false, 9 / 10, false⟩⟩
    ⟨some 95, some 45, false, false, none, some (1000, 1000), [], [], []⟩
    95 45 ⟨false, 9 / 10, false⟩ rfl rfl (by norm_num) rfl rfl

/-- C7 counterexample: `hw=45, ocr=40, blur=25` (very blurry). The claim
predicts REJECTED for `hw ≥ 40, ocr < 70`, but the very-blurry discount nulls
the handwriting signal and the moderate-blur tier returns FLAG_FOR_REVIEW. -/
theorem c7_counterexample :
    makeConsensusDecision ⟨false, false, none⟩
      ⟨some 40, some 45, false, false, some 25, some (4000, 3000), [], [], []⟩ =
      .ok (some ⟨.flagForReview, .low⟩) :=
  rfl

/-- C7 (amended): for `hw ≥ 40` and `ocr < 80`, provided the very-blurry
discount does not fire (`¬(blur < 30 ∧ 30 ≤ ocr < 50)`): `ocr < 70` gives
REJECTED; for `ocr ≥ 70` with the oracle gate returning no result, the page is
ACCEPTED exactly when `ocr ≥ 75` and REJECTED otherwise. -/
theorem c7_high_handwriting_tier (env : FloEnv) (sig : Signals) (o h : ℚ)
    (hocr : sig.ocr = some o) (hhw : sig.hw = some h)
    (hh : 40 ≤ h) (ho80 : o < 80)
    (hnb : oLt sig.blur 30 = true → o < 30 ∨ 50 ≤ o) :
    (o < 70 → makeConsensusDecision env sig = .ok (some ⟨.rejected, .na⟩)) ∧
    (70 ≤ o → checkFlorence env sig.ocr sig.hw = none →
      makeConsensusDecision env sig =
        .ok (some (if 75 ≤ o then ⟨.accepted, .normal⟩ else ⟨.rejected, .na⟩))) := by
  have hA : highOcrTier env sig = none := by
    unfold highOcrTier
    rw [hocr]
    simp [oGe_some, show ¬(80 : ℚ) ≤ o from by linarith]
  have hd : discountedHw sig = sig.hw := by
    unfold discountedHw
    cases hb : oLt sig.blur 30 with
    | false => simp [hb]
    | true =>
      rcases hnb hb with hx | hx
      · rw [hocr]
        simp [oGe_some, show ¬(30 : ℚ) ≤ o from by linarith]
      · rw [hocr]
        simp [oGe_some, hx]
  constructor
  · intro h70
    unfold makeConsensusDecision
    rw [hA, hd, hhw]
    unfold consensusCore
    rw [hocr]
    by_cases h20 : o < 20
    · simp [oLt_some, h20]
    · simp [oLt_some, oGe_some, h20, hh, show ¬(70 : ℚ) ≤ o from by linarith]
  · intro h70 hfo
    rw [hocr, hhw] at hfo
    unfold makeConsensusDecision
    rw [hA, hd, hhw]
    unfold consensusCore
    rw [hocr]
    by_cases h75 : (75 : ℚ) ≤ o
    · simp [oLt_some, oGe_some, show ¬o < 20 from by linarith, hh, h70, hfo, h75]
    · simp [oLt_some, oGe_some, show ¬o < 20 from by linarith, hh, h70, hfo, h75]

/-- C7 witness: the spec scenario `hw=45, ocr=72`, oracle unavailable, is
REJECTED (72 < 75). -/
theorem c7_high_handwriting_tier_witness :
    makeConsensusDecision ⟨false, false, none⟩
      ⟨some 72, some 45, false, false, none, some (1000, 1000), [], [], []⟩ =
      .ok (some ⟨.rejected, .na⟩) := by
  have h := (c7_high_handwriting_tier ⟨false, false, none⟩
    ⟨some 72, some 45, false, false, none, some (1000, 1000), [], [], []⟩ 72 45 rfl rfl
    (by norm_num) (by norm_num) (fun _ => Or.inr (by norm_num))).2 (by norm_num) rfl
  norm_num at h
  exact h

/-- C8: when the oracle reports `is_printed = True` (without error) and the
gate's invocation conditions hold, the gate approves the override exactly when
the oracle confidence is at least the required bar of the spec: 0.75 for
`hw ≥ 40`, 0.70 for `≥ 35`, 0.65 for `≥ 30`, else 0.60, reduced by 0.10 when
`ocr ≥ 80` or by 0.05 when `ocr ≥ 75`, floored at 0.60; below the bar the
gate returns none. -/
theorem c8_oracle_bar (env : FloEnv) (o h : ℚ) (r : ORes)
    (hav : env.available = true) (him : env.hasImage = true)
    (hcl : env.classify = some r) (herr : r.hasErr = false)
    (hpr : r.isPrinted = true) (h50 : 50 ≤ o) (h20 : 20 ≤ h)
    (g1 : 40 ≤ h → 70 ≤ o) (g2 : 35 ≤ h → h < 40 → 65 ≤ o)
    (g3 : 30 ≤ h → h < 35 → 60 ≤ o) :
    checkFlorence env (some o) (some h) =
      (if specRequiredBar h o ≤ r.confidence then some r else none) := by
  unfold checkFlorence
  rw [hav, him]
  have h1 : ¬(o < 50 ∨ h < 20) := by
    rintro (hx | hx) <;> linarith
  have h2 : ¬(40 ≤ h ∧ o < 70) := by
    rintro ⟨a, b⟩
    have := g1 a
    linarith
  have h3 : ¬(35 ≤ h ∧ h < 40 ∧ o < 65) := by
    rintro ⟨a, b, c⟩
    have := g2 a b
    linarith
  have h4 : ¬(30 ≤ h ∧ h < 35 ∧ o < 60) := by
    rintro ⟨a, b, c⟩
    have := g3 a b
    linarith
  simp only [Bool.and_self]
  rw [if_neg h1, if_neg h2, if_neg h3, if_neg h4, hcl]
  simp only [herr, hpr, Bool.not_true, Bool.false_eq_true, if_false]
  have hbar : specRequiredBar h o =
      (if 80 ≤ o then
        max 0.60 ((if 40 ≤ h then (0.75 : ℚ) else if 35 ≤ h then 0.70
          else if 30 ≤ h then 0.65 else 0.60) - 0.10)
      else if 75 ≤ o then
        max 0.60 ((if 40 ≤ h then (0.75 : ℚ) else if 35 ≤ h then 0.70
          else if 30 ≤ h then 0.65 else 0.60) - 0.05)
      else
        if 40 ≤ h then 0.75 else if 35 ≤ h then 0.70
        else if 30 ≤ h then 0.65 else 0.60) := by
    unfold specRequiredBar
    rfl
  rcases le_or_lt (specRequiredBar h o) r.confidence with hc | hc
  · rw [if_pos hc]
    rw [if_neg]
    rw [hbar] at hc
    push_neg
    split_ifs at hc ⊢ <;> linarith
  · rw [if_neg (not_le.mpr hc)]
    rw [if_pos]
    rw [hbar] at hc
    split_ifs at hc ⊢ <;> linarith

/-- C8 witness: `hw=37, ocr=72` gives bar 0.70; a printed oracle result with
confidence 0.8 is approved and returned. -/
theorem c8_oracle_bar_witness :
    checkFlorence ⟨true, true, some ⟨true, 8 / 10, false⟩⟩ (some 72) (some 37) =
      some ⟨true, 8 / 10, false⟩ := by
  have h := c8_oracle_bar ⟨true, true, some ⟨true, 8 / 10, false⟩⟩ 72 37
    ⟨true, 8 / 10, false⟩ rfl rfl rfl rfl rfl (by norm_num) (by norm_num)
    (by intro hx; norm_num at hx) (fun _ _ => by norm_num)
    (fun _ _ => by norm_num)
  rw [h]
  norm_num [specRequiredBar]

theorem filter_not_contains_eq (l : List String) (p : String → Bool) :
    l.filter (fun f => !((l.filter p).contains f)) = l.filter (fun f => !(p f)) := by
  apply List.filter_congr
  intro x hx
  congr 1
  by_cases hpx : p x = true
  · have hmem : x ∈ l.filter p := List.mem_filter.mpr ⟨hx, hpx⟩
    rw [hpx]
    exact List.elem_iff.mpr hmem
  · have hnm : x ∉ l.filter p := by
      intro hc
      exact hpx (List.mem_filter.mp hc).2
    rw [Bool.eq_false_iff.mpr hpx, Bool.eq_false_iff]
    intro hc
    exact hnm (List.elem_iff.mp hc)

theorem filter_not_ne_self (l : List String) (p : String → Bool)
    (hne : l.filter p ≠ []) : l.filter (fun f => !(p f)) ≠ l := by
  intro heq
  have hall := List.filter_eq_self.mp heq
  obtain ⟨x, hxmem⟩ := List.exists_mem_of_ne_nil _ hne
  obtain ⟨hxl, hpx⟩ := List.mem_filter.mp hxmem
  have hres := hall x hxl
  rw [hpx] at hres
  simp at hres

/-- C9 counterexample: a readable page (`ocr=60`) with moderate blur
(`blur=40`) and a blur-labelled stage-1 critical failure: after filtering,
the stage-1 result's `critical_failures` is emptied and a warning is
appended, so the stage result is not what the analyzer produced. -/
theorem c9_counterexample :
    filterFalsePositives ⟨["Image too blurry"], []⟩ ⟨[], []⟩ ["Image too blurry"] []
        (some 60) (some 40) =
      .ok (⟨[], [blurWarnMsg 40 60]⟩, ⟨[], []⟩, [], [blurWarnMsg 40 60]) ∧
    (⟨[], [blurWarnMsg 40 60]⟩ : StageLists) ≠ ⟨["Image too blurry"], []⟩ := by
  refine ⟨rfl, ?_⟩
  intro hcontra
  have := congrArg StageLists.crit hcontra
  simp at this

/-- C9 (amended): the filtering step rewrites the stage results in
state-passing terms, instead of never modifying them: when the page is not
readable or blur is extreme, everything is returned unchanged; for a readable
page (`ocr ≥ 50`) with `blur ≥ 30` whose stage-1 result contains a
blur-labelled critical failure, the returned stage-1 result has every
blur-labelled failure removed and a blur warning appended; and for a readable
very-blurry page (`15 ≤ blur < 30`) the same happens to stage 1 and, in
addition, every handwriting-labelled failure is removed from the stage-3
result with a handwriting warning appended — so the returned stage lists
differ from what the analyzers produced. -/
theorem c9_filter_mutation :
    (∀ (s1 s3 : StageLists) (pc pw : List String) (ocr blur : Option ℚ),
      (oGe ocr 50 && !(oLt blur blurExtremeThreshold)) = false →
      filterFalsePositives s1 s3 pc pw ocr blur = .ok (s1, s3, pc, pw)) ∧
    (∀ (s1 s3 : StageLists) (pc pw : List String) (o b : ℚ),
      50 ≤ o → 30 ≤ b → s1.crit.filter (fun f => isBlurMsg f) ≠ [] →
      filterFalsePositives s1 s3 pc pw (some o) (some b) =
        .ok (⟨s1.crit.filter (fun f => !(isBlurMsg f)), s1.warn ++ [blurWarnMsg b o]⟩,
          s3, pc.filter (fun f => !((s1.crit.filter (fun f => isBlurMsg f)).contains f)),
          pw ++ [blurWarnMsg b o]) ∧
      s1.crit.filter (fun f => !(isBlurMsg f)) ≠ s1.crit) ∧
    (∀ (s1 s3 : StageLists) (pc pw : List String) (o b : ℚ),
      50 ≤ o → 15 ≤ b → b < 30 →
      s1.crit.filter (fun f => isBlurMsg f) ≠ [] →
      s3.crit.filter (fun f => isHwMsg f) ≠ [] →
      filterFalsePositives s1 s3 pc pw (some o) (some b) =
        .ok (⟨s1.crit.filter (fun f => !(isBlurMsg f)), s1.warn ++ [blurWarnMsg b o]⟩,
          ⟨s3.crit.filter (fun f => !(isHwMsg f)), s3.warn ++ [hwWarnMsg b o]⟩,
          (pc.filter (fun f => !((s1.crit.filter (fun f => isBlurMsg f)).contains f))).filter
            (fun f => !((s3.crit.filter (fun f => isHwMsg f)).contains f)),
          (pw ++ [blurWarnMsg b o]) ++ [hwWarnMsg b o]) ∧
      s1.crit.filter (fun f => !(isBlurMsg f)) ≠ s1.crit ∧
      s3.crit.filter (fun f => !(isHwMsg f)) ≠ s3.crit) := by
  refine ⟨?_, ?_, ?_⟩
  · intro s1 s3 pc pw ocr blur hcond
    unfold filterFalsePositives
    rw [hcond]
    simp
  · intro s1 s3 pc pw o b h50 h30 hne
    have hcond : (oGe (some o) 50 && !(oLt (some b) blurExtremeThreshold)) = true := by
      simp [oGe_some, oLt_some, blurExtremeThreshold, h50,
        show ¬b < 15 from by linarith]
    have hemp : (s1.crit.filter (fun f => isBlurMsg f)).isEmpty = false := by
      cases hbf : s1.crit.filter (fun f => isBlurMsg f) with
      | nil => exact absurd hbf hne
      | cons a as => rfl
    have hlt30 : oLt (some b) 30 = false := by
      simp [oLt_some]
      linarith
    refine ⟨?_, filter_not_ne_self s1.crit (fun f => isBlurMsg f) hne⟩
    unfold filterFalsePositives
    rw [hcond]
    simp only [if_true]
    rw [hemp]
    simp only [Bool.false_eq_true, if_false]
    rw [hlt30]
    simp only [Bool.false_eq_true, if_false]
    rw [filter_not_contains_eq s1.crit (fun f => isBlurMsg f)]
  · intro s1 s3 pc pw o b h50 hb15 hb30 hne1 hne3
    have hcond : (oGe (some o) 50 && !(oLt (some b) blurExtremeThreshold)) = true := by
      simp [oGe_some, oLt_some, blurExtremeThreshold, h50,
        show ¬b < 15 from by linarith]
    have hemp : (s1.crit.filter (fun f => isBlurMsg f)).isEmpty = false := by
      cases hbf : s1.crit.filter (fun f => isBlurMsg f) with
      | nil => exact absurd hbf hne1
      | cons a as => rfl
    have hemp3 : (s3.crit.filter (fun f => isHwMsg f)).isEmpty = false := by
      cases hbf : s3.crit.filter (fun f => isHwMsg f) with
      | nil => exact absurd hbf hne3
      | cons a as => rfl
    have hlt30 : oLt (some b) 30 = true := by
      simp [oLt_some, hb30]
    refine ⟨?_, filter_not_ne_self s1.crit (fun f => isBlurMsg f) hne1,
      filter_not_ne_self s3.crit (fun f => isHwMsg f) hne3⟩
    unfold filterFalsePositives
    rw [hcond]
    simp only [if_true]
    rw [hemp]
    simp only [Bool.false_eq_true, if_false]
    rw [hlt30]
    simp only [if_true]
    rw [hemp3]
    simp only [Bool.false_eq_true, if_false]
    rw [filter_not_contains_eq s1.crit (fun f => isBlurMsg f),
      filter_not_contains_eq s3.crit (fun f => isHwMsg f)]

/-- C9 witness: the amended theorem applied at a readable page with a
blur-labelled critical failure and moderate blur (40), and at a readable
very-blurry page (blur 20) that also carries a handwriting-labelled stage-3
critical failure. -/
theorem c9_filter_mutation_witness :
    filterFalsePositives ⟨["Image too blurry"], []⟩ ⟨[], []⟩ ["Image too blurry"] []
        (some 60) (some 40) =
      .ok (⟨List.filter (fun f => !(isBlurMsg f)) ["Image too blurry"],
          [] ++ [blurWarnMsg 40 60]⟩, ⟨[], []⟩,
        List.filter
          (fun f => !((List.filter (fun f => isBlurMsg f) ["Image too blurry"]).contains f))
          ["Image too blurry"],
        [] ++ [blurWarnMsg 40 60]) ∧
    filterFalsePositives ⟨["Image too blurry"], []⟩ ⟨["Handwriting detected"], []⟩
        ["Image too blurry", "Handwriting detected"] [] (some 60) (some 20) =
      .ok (⟨List.filter (fun f => !(isBlurMsg f)) ["Image too blurry"],
          [] ++ [blurWarnMsg 20 60]⟩,
        ⟨List.filter (fun f => !(isHwMsg f)) ["Handwriting detected"],
          [] ++ [hwWarnMsg 20 60]⟩,
        (List.filter
          (fun f => !((List.filter (fun f => isBlurMsg f) ["Image too blurry"]).contains f))
          ["Image too blurry", "Handwriting detected"]).filter
          (fun f => !((List.filter (fun f => isHwMsg f) ["Handwriting detected"]).contains f)),
        ([] ++ [blurWarnMsg 20 60]) ++ [hwWarnMsg 20 60]) :=
  ⟨(c9_filter_mutation.2.1 ⟨["Image too blurry"], []⟩ ⟨[], []⟩ ["Image too blurry"] []
      60 40 (by norm_num) (by norm_num) (by decide)).1,
    (c9_filter_mutation.2.2 ⟨["Image too blurry"], []⟩ ⟨["Handwriting detected"], []⟩
      ["Image too blurry", "Handwriting detected"] [] 60 20 (by norm_num) (by norm_num)
      (by norm_num) (by decide) (by decide)).1⟩
